import Mathlib

/-!
# Verification of the image-metadata extraction scripts

Shallow embedding of `extract_image_metadata.py` (namespace `Extract`, the base
variant) and `image_upload_and_metadata.py` (namespace `Upload`, the GCS-upload
variant), together with proofs about the properties of the two scripts.

Modelling conventions:
* Python floats on EXIF rationals are modelled as `ℚ` (the arithmetic performed —
  sums of small rationals and negation — is exact in both representations for the
  properties proved here).
* A raised-and-not-locally-caught Python exception is modelled as `Option.none` at
  the level of the enclosing `try` block.
* The tag resolver (`TAGS.get` / `GPSTAGS.get`) is a fixed external table; tags are
  therefore represented directly by their resolved names, with `Other`/`OtherGps`
  covering every identifier that is not consulted by name in the scripts.
* `datetime.strptime(value, '%Y:%m:%d %H:%M:%S')` is modelled after CPython's
  `_strptime`: the format compiles to the regex
  `(\d\d\d\d):(1[0-2]|0[1-9]|[1-9]):(3[01]|[12]\d|0[1-9]|[1-9])\s+(2[0-3]|[0-1]\d|\d):([0-5]\d|\d):(6[0-1]|[0-5]\d|\d)`
  which must match the whole string, after which the `datetime` constructor
  validates the calendar date (day against month length, second at most 59).
  Digits are modelled as ASCII digits.
-/

namespace ImageMeta

/-- Values found in the GPS sub-tag mapping of an EXIF dictionary: a
degrees/minutes/seconds triple, a (reference) string, or a plain number.
Tag values outside these shapes do not occur in the claims settled here. -/
inductive PyVal where
  | tuple3 (degrees minutes seconds : ℚ)
  | str (s : String)
  | num (q : ℚ)
deriving DecidableEq

/-- Python truthiness of a `PyVal`: a 3-tuple is always truthy, a string is truthy
iff non-empty, a number is truthy iff non-zero. -/
def pyTruthy : PyVal → Bool
  | .tuple3 _ _ _ => true
  | .str s => s != ""
  | .num q => q != 0

/-- Truthiness of a `dict.get` result (`None` is falsy). -/
def truthyOpt : Option PyVal → Bool
  | some v => pyTruthy v
  | none => false

/-- Numeric value of an ASCII digit character. -/
def digitVal (c : Char) : Nat := c.toNat - 48

namespace Extract

/-- Model of `dms_to_decimal` of `extract_image_metadata.py` (lines 20-25).

The Python function is dynamically typed; at its call sites `dms` is the value
stored under `GPSLatitude`/`GPSLongitude` and `ref` the value stored under the
corresponding reference sub-tag.  `none` models a raised exception:
* a number cannot be unpacked into `degrees, minutes, seconds` (`TypeError`);
* a string unpacks into its characters only when of length 3, after which
  `float(c)` succeeds exactly on digit characters (`ValueError` otherwise).
`ref in ['S', 'W']` is an equality test against the two strings, false for any
non-string value. -/
def dms_to_decimal (dms ref : PyVal) : Option ℚ :=
  let isSW : Bool :=
    match ref with
    | .str r => r == "S" || r == "W"
    | _ => false
  match dms with
  | .tuple3 degrees minutes seconds =>
      let decimal := degrees + minutes / 60 + seconds / 3600
      some (if isSW then -decimal else decimal)
  | .str s =>
      match s.data with
      | [a, b, c] =>
          if a.isDigit && b.isDigit && c.isDigit then
            let decimal := (digitVal a : ℚ) + (digitVal b : ℚ) / 60 + (digitVal c : ℚ) / 3600
            some (if isSW then -decimal else decimal)
          else none
      | _ => none
  | .num _ => none

end Extract

namespace Upload

/-- Model of `dms_to_decimal` of `image_upload_and_metadata.py` (lines 33-48); the body is
identical to the base variant's converter. -/
def dms_to_decimal (dms ref : PyVal) : Option ℚ :=
  let isSW : Bool :=
    match ref with
    | .str r => r == "S" || r == "W"
    | _ => false
  match dms with
  | .tuple3 degrees minutes seconds =>
      let decimal := degrees + minutes / 60 + seconds / 3600
      some (if isSW then -decimal else decimal)
  | .str s =>
      match s.data with
      | [a, b, c] =>
          if a.isDigit && b.isDigit && c.isDigit then
            let decimal := (digitVal a : ℚ) + (digitVal b : ℚ) / 60 + (digitVal c : ℚ) / 3600
            some (if isSW then -decimal else decimal)
          else none
      | _ => none
  | .num _ => none

end Upload

/-- Resolved EXIF tag names: the four names the scripts test for, plus `Other`
for every remaining tag identifier (resolved or numeric). -/
inductive Tag where
  | GPSInfo
  | DateTime
  | DateTimeOriginal
  | DateTimeDigitized
  | Other (id : Nat)
deriving DecidableEq

/-- Resolved GPS sub-tag names: the four names consulted via `gps_info.get`,
plus `OtherGps` for every remaining sub-tag identifier. -/
inductive GpsTag where
  | GPSLatitude
  | GPSLatitudeRef
  | GPSLongitude
  | GPSLongitudeRef
  | OtherGps (id : Nat)
deriving DecidableEq

/-- The value attached to one EXIF tag: the `GPSInfo` sub-dictionary (as its
ordered item list), a string, or some other value. -/
inductive ExifValue where
  | gps (entries : List (GpsTag × PyVal))
  | str (s : String)
  | other
deriving DecidableEq

/-- Model of `dict.get` on the `gps_info` dictionary, represented as an association list. -/
def dictGet (d : List (GpsTag × PyVal)) (k : GpsTag) : Option PyVal :=
  match d with
  | [] => none
  | (k₀, v₀) :: rest => if k₀ = k then some v₀ else dictGet rest k

/-- Model of `dict[key] = value` on the `gps_info` dictionary: overwrite in place if the
key exists, otherwise append (Python dicts preserve insertion order). -/
def dictInsert (d : List (GpsTag × PyVal)) (k : GpsTag) (v : PyVal) :
    List (GpsTag × PyVal) :=
  match d with
  | [] => [(k, v)]
  | (k₀, v₀) :: rest => if k₀ = k then (k₀, v) :: rest else (k₀, v₀) :: dictInsert rest k v

/-! ## Model of `datetime.strptime(value, '%Y:%m:%d %H:%M:%S')` -/

/-- Parsed field values of one date/time string. -/
structure DtFields where
  y : Nat
  mo : Nat
  d : Nat
  h : Nat
  mi : Nat
  s : Nat
deriving DecidableEq

/-- One 1-or-2-digit field of CPython's `_strptime` regex.  Because every such
field is followed by a non-digit (separator or end of string), the ordered
regex alternation behaves as: consume two digits when both are digits and the
two-digit value is admissible, otherwise consume one admissible digit. -/
def readField2 (valid2 valid1 : Nat → Bool) : List Char → Option (Nat × List Char)
  | c₁ :: c₂ :: rest =>
      if c₁.isDigit then
        if c₂.isDigit then
          let v := digitVal c₁ * 10 + digitVal c₂
          if valid2 v then some (v, rest) else none
        else
          let v := digitVal c₁
          if valid1 v then some (v, c₂ :: rest) else none
      else none
  | [c₁] =>
      if c₁.isDigit && valid1 (digitVal c₁) then some (digitVal c₁, []) else none
  | [] => none

/-- The `%Y` field: exactly four digits. -/
def read4 : List Char → Option (Nat × List Char)
  | a :: b :: c :: d :: rest =>
      if a.isDigit && b.isDigit && c.isDigit && d.isDigit then
        some (((digitVal a * 10 + digitVal b) * 10 + digitVal c) * 10 + digitVal d, rest)
      else none
  | _ => none

/-- A literal character of the format. -/
def expectChar (c : Char) : List Char → Option (List Char)
  | c₀ :: rest => if c₀ = c then some rest else none
  | [] => none

/-- The `\s+` that `_strptime` substitutes for the literal space of the format:
one or more whitespace characters, consumed greedily. -/
def skipWs1 : List Char → Option (List Char)
  | c :: rest => if c.isWhitespace then some (rest.dropWhile Char.isWhitespace) else none
  | [] => none

/-- The `%m` two-digit alternatives `1[0-2]|0[1-9]`: values 1..12, excluding `00`. -/
def monthValid2 (v : Nat) : Bool := 1 ≤ v && v ≤ 12

/-- The `%d` two-digit alternatives `3[01]|[12]\d|0[1-9]`: values 1..31, excluding `00`. -/
def dayValid2 (v : Nat) : Bool := 1 ≤ v && v ≤ 31

/-- Single-digit alternative `[1-9]` of `%m` and `%d`. -/
def oneToNine (v : Nat) : Bool := 1 ≤ v

/-- The `%H` two-digit alternatives `2[0-3]|[0-1]\d`: values 0..23. -/
def hourValid2 (v : Nat) : Bool := v ≤ 23

/-- The `%M` two-digit alternative `[0-5]\d`: values 0..59. -/
def minuteValid2 (v : Nat) : Bool := v ≤ 59

/-- The `%S` two-digit alternatives `6[0-1]|[0-5]\d`: values 0..61 (leap seconds
pass the regex and are rejected by the `datetime` constructor). -/
def secondValid2 (v : Nat) : Bool := v ≤ 61

/-- Single-digit alternative `\d` of `%H`, `%M`, `%S`. -/
def anyDigit (_ : Nat) : Bool := true

/-- The full-string regex match of `_strptime` for the format
`'%Y:%m:%d %H:%M:%S'` (anchored at the start; `len(data_string)` must equal
`found.end()`). -/
def parseFieldsCore (cs : List Char) : Option DtFields := do
  let (y, cs) ← read4 cs
  let cs ← expectChar ':' cs
  let (mo, cs) ← readField2 monthValid2 oneToNine cs
  let cs ← expectChar ':' cs
  let (d, cs) ← readField2 dayValid2 oneToNine cs
  let cs ← skipWs1 cs
  let (h, cs) ← readField2 hourValid2 anyDigit cs
  let cs ← expectChar ':' cs
  let (mi, cs) ← readField2 minuteValid2 anyDigit cs
  let cs ← expectChar ':' cs
  let (s, cs) ← readField2 secondValid2 anyDigit cs
  if cs = [] then some ⟨y, mo, d, h, mi, s⟩ else none

/-- Gregorian leap-year rule, as in `datetime`. -/
def isLeapYear (y : Nat) : Bool := y % 4 == 0 && (y % 100 != 0 || y % 400 == 0)

/-- Length of a month, as in `datetime`. -/
def daysInMonth (y mo : Nat) : Nat :=
  if mo = 2 then (if isLeapYear y then 29 else 28)
  else if mo = 4 ∨ mo = 6 ∨ mo = 9 ∨ mo = 11 then 30
  else 31

/-- The validation performed by the `datetime` constructor on the matched
fields (`ValueError` on failure): year in `MINYEAR..MAXYEAR`, valid month,
day within the month, hour at most 23, minute and second at most 59. -/
def validDatetime (f : DtFields) : Bool :=
  1 ≤ f.y && f.y ≤ 9999 && 1 ≤ f.mo && f.mo ≤ 12 && 1 ≤ f.d &&
    f.d ≤ daysInMonth f.y f.mo && f.h ≤ 23 && f.mi ≤ 59 && f.s ≤ 59

/-- Model of `datetime.strptime(value, '%Y:%m:%d %H:%M:%S')`: regex match, then
constructor validation; `none` models a raised `ValueError`. -/
def strptimeExif (s : String) : Option DtFields :=
  match parseFieldsCore s.data with
  | some f => if validDatetime f then some f else none
  | none => none

/-- Zero-padding to two digits, as in `strftime` `%m`, `%d`, `%H`, `%M`, `%S`. -/
def pad2 (n : Nat) : String := (if n < 10 then "0" else "") ++ toString n

/-- Model of `date_time_obj.strftime('%m/%d/%Y')`.  `%Y` is rendered without padding
(glibc behaviour); every year accepted by the four-digit regex and the
constructor prints as its decimal digits. -/
def renderDateMDY (f : DtFields) : String :=
  pad2 f.mo ++ "/" ++ pad2 f.d ++ "/" ++ toString f.y

/-- Model of `date_time_obj.strftime('%H:%M:%S')`. -/
def renderTimeHMS (f : DtFields) : String :=
  pad2 f.h ++ ":" ++ pad2 f.mi ++ ":" ++ pad2 f.s

/-- The `try`/`except ValueError` block run on a date/time tag's string value:
on successful parse the pair of rendered date and time, on `ValueError` the
pair `(None, None)` — both variables are assigned in each branch. -/
def runDateTag (v : String) : Option String × Option String :=
  match strptimeExif v with
  | some f => (some (renderDateMDY f), some (renderTimeHMS f))
  | none => (none, none)

/-! ## The per-file tag loop (identical in both scripts) -/

/-- The loop state of the per-file EXIF iteration: `gps_info` accumulates GPS
sub-tags, the four metadata variables start as `None`. -/
structure LoopState where
  gps_info : List (GpsTag × PyVal)
  date : Option String
  time : Option String
  latitude : Option ℚ
  longitude : Option ℚ
deriving DecidableEq

/-- Initial loop state. -/
def initState : LoopState := ⟨[], none, none, none, none⟩

/-- Whether a resolved tag name is in `('DateTime', 'DateTimeOriginal',
'DateTimeDigitized')`. -/
def isDateTag : Tag → Bool
  | .DateTime => true
  | .DateTimeOriginal => true
  | .DateTimeDigitized => true
  | _ => false

/-- The `gps_info` dictionary after the inner `for key in value` loop of one
`GPSInfo` entry. -/
def updatedGpsInfo (st : LoopState) (subEntries : List (GpsTag × PyVal)) :
    List (GpsTag × PyVal) :=
  subEntries.foldl (fun acc kv => dictInsert acc kv.1 kv.2) st.gps_info

/-- The guard of the coordinate extraction: all four GPS sub-tags present and
truthy in the resolved mapping. -/
def allFourPresent (g : List (GpsTag × PyVal)) : Bool :=
  truthyOpt (dictGet g GpsTag.GPSLatitude) && truthyOpt (dictGet g GpsTag.GPSLatitudeRef) &&
    truthyOpt (dictGet g GpsTag.GPSLongitude) && truthyOpt (dictGet g GpsTag.GPSLongitudeRef)

/-- One iteration of the `for tag_id, value in exif_data.items()` loop, shared
verbatim by both scripts (the upload variant names the converter and the time
variable differently but is otherwise identical; the converters are proved
extensionally equal below).  `none` models an exception escaping the loop body:
a `GPSInfo` value that is not a tag mapping makes the loop body fail on
subscripting (string values, which Python would iterate characterwise without
ever touching the four GPS sub-tag names, are conservatively modelled the same
way — no claim depends on that corner), and a date/time tag whose value is not
a string makes `strptime` raise a `TypeError`, which `except ValueError` does
not catch. -/
def stepTag (st : LoopState) (entry : Tag × ExifValue) : Option LoopState :=
  match entry with
  | (Tag.GPSInfo, ExifValue.gps subEntries) =>
      let g := updatedGpsInfo st subEntries
      let gps_latitude := dictGet g GpsTag.GPSLatitude
      let gps_latitude_ref := dictGet g GpsTag.GPSLatitudeRef
      let gps_longitude := dictGet g GpsTag.GPSLongitude
      let gps_longitude_ref := dictGet g GpsTag.GPSLongitudeRef
      if truthyOpt gps_latitude && truthyOpt gps_latitude_ref &&
          truthyOpt gps_longitude && truthyOpt gps_longitude_ref then
        match gps_latitude, gps_latitude_ref, gps_longitude, gps_longitude_ref with
        | some lat, some latRef, some lon, some lonRef =>
            match Extract.dms_to_decimal lat latRef, Extract.dms_to_decimal lon lonRef with
            | some la, some lo =>
                some { st with gps_info := g, latitude := some la, longitude := some lo }
            | _, _ => none
        | _, _, _, _ => none
      else
        some { st with gps_info := g }
  | (Tag.GPSInfo, _) => none
  | (tag, ExifValue.str v) =>
      if isDateTag tag then
        let dt := runDateTag v
        some { st with date := dt.1, time := dt.2 }
      else some st
  | (tag, _) => if isDateTag tag then none else some st

/-- The whole `for` loop from a given state. -/
def runEntries (st : LoopState) : List (Tag × ExifValue) → Option LoopState
  | [] => some st
  | e :: rest =>
      match stepTag st e with
      | some st₁ => runEntries st₁ rest
      | none => none

/-- The whole `for` loop from the initial state. -/
def processEntries (entries : List (Tag × ExifValue)) : Option LoopState :=
  runEntries initState entries

/-! ## Per-file inputs and records -/

/-- What opening one file yields: `error` when `Image.open`/`_getexif` raises,
`noneData` when `_getexif()` returns `None`, `dict` the item list of the EXIF
dictionary in iteration order. -/
inductive ExifData where
  | error
  | noneData
  | dict (entries : List (Tag × ExifValue))
deriving DecidableEq

/-- One file of the input folder: its base name and the outcome of reading its
EXIF data. -/
structure ImageFile where
  filename : String
  exif : ExifData
deriving DecidableEq

/-- The record the base variant builds for one file (the keys of `exif_dict`). -/
structure MetadataRecord where
  filename : String
  latitude : Option ℚ
  longitude : Option ℚ
  date : Option String
  time : Option String
deriving DecidableEq

namespace Extract

/-- The filename filter of `extract_metadata`:
`filename.lower().endswith(('.jpg', '.jpeg', '.tiff', '.tif'))`, modelled on
the character list (`lower` maps ASCII uppercase to lowercase, as Python does
on ASCII filenames). -/
def isImageFilename (name : String) : Bool :=
  [".jpg", ".jpeg", ".tiff", ".tif"].any
    (fun ext => ext.data.isSuffixOf (name.data.map Char.toLower))

/-- The body of the per-file `try` block of `extract_metadata` (lines 34-84):
`none` models a raised exception, in which case nothing is appended to
`metadata_list`.  An EXIF dictionary that is `None` or empty is falsy, so both
cases yield the all-`None` record. -/
def processFile (f : ImageFile) : Option MetadataRecord :=
  match f.exif with
  | .error => none
  | .noneData => some ⟨f.filename, none, none, none, none⟩
  | .dict entries =>
      if entries.isEmpty then some ⟨f.filename, none, none, none, none⟩
      else
        match processEntries entries with
        | some st => some ⟨f.filename, st.latitude, st.longitude, st.date, st.time⟩
        | none => none

/-- The observable outcome of one run of the base variant: the aggregated
records and the CSV file (`some rows` means `image_metadata.csv` was opened
with mode `'w'` — truncating — and the rows written after the header). -/
structure Run where
  metadata_list : List MetadataRecord
  csvFile : Option (List MetadataRecord)
deriving DecidableEq

/-- One iteration of the folder loop of `extract_metadata`: non-matching
filenames are skipped; a matching file is processed inside `try`/`except`, and
a file whose processing raises is only printed about, not appended. -/
def stepFold (acc : List MetadataRecord) (f : ImageFile) : List MetadataRecord :=
  if isImageFilename f.filename then
    match processFile f with
    | some r => acc ++ [r]
    | none => acc
  else acc

/-- Model of `extract_metadata` of `extract_image_metadata.py`: iterate the folder, then
unconditionally open `image_metadata.csv` with mode `'w'` and write the rows. -/
def extract_metadata (files : List ImageFile) : Run :=
  let metadata_list := files.foldl stepFold []
  { metadata_list := metadata_list, csvFile := some metadata_list }

end Extract

namespace Upload

/-- What `extract_image_metadata` of the upload variant returns: the full
five-key dictionary (success path — reached also when the EXIF dictionary is
`None` or empty, the four assignments at lines 101-104 being outside the
`if exif_data:` block), or the `{'Filename': filename}`-only dictionary of the
`except` branch. -/
inductive ExtractedPayload where
  | full (latitude longitude : Option ℚ) (date time : Option String)
  | filenameOnly
deriving DecidableEq

/-- Model of `extract_image_metadata` of `image_upload_and_metadata.py` (lines 50-110):
the whole body is wrapped in `try`; any exception yields the filename-only
dictionary.  The loop is the shared `processEntries`. -/
def extract_image_metadata (f : ImageFile) : ExtractedPayload :=
  match f.exif with
  | .error => .filenameOnly
  | .noneData => .full none none none none
  | .dict entries =>
      if entries.isEmpty then .full none none none none
      else
        match processEntries entries with
        | some st => .full st.latitude st.longitude st.date st.time
        | none => .filenameOnly

/-- One CSV row of the upload variant (the keys of `metadata`). -/
structure GcsRecord where
  filename : String
  latitude : Option ℚ
  longitude : Option ℚ
  date : Option String
  time : Option String
  imageURL : Option String
deriving DecidableEq

/-- One file of the folder together with the externally-determined outcome of
its upload attempt: whether `blob.upload_from_filename` succeeds, and — used
only when it fails — the `datetime.now()` timestamp rendered when the error is
logged and the text of the raised exception. -/
structure UploadFile where
  file : ImageFile
  uploadOk : Bool
  errTimestamp : String
  uploadErrDetail : String

/-- The filename filter of the upload variant:
`filename.lower().endswith(('.jpg', '.jpeg', '.png', '.gif', '.tiff', '.tif'))`,
modelled on the character list as in the base variant. -/
def isImageFilename (name : String) : Bool :=
  [".jpg", ".jpeg", ".png", ".gif", ".tiff", ".tif"].any
    (fun ext => ext.data.isSuffixOf (name.data.map Char.toLower))

/-- The public URL derived for an uploaded object:
`https://storage.googleapis.com/<bucket>/<filename>`. -/
def publicUrl (bucket filename : String) : String :=
  "https://storage.googleapis.com/" ++ bucket ++ "/" ++ filename

/-- The loop body of `upload_images_to_gcs_with_metadata` for one matched file
(lines 159-186): initialize all six keys to `None`, `metadata.update` with the
extractor's dictionary (which never raises, so the surrounding `try`/`except`
never appends an extraction error), then attempt the upload.  Returns the row,
the error-log entry if the upload failed, and the upload outcome. -/
def processOne (bucket : String) (uf : UploadFile) : GcsRecord × Option (String × String) × Bool :=
  let base : GcsRecord :=
    match extract_image_metadata uf.file with
    | .full la lo d t => ⟨uf.file.filename, la, lo, d, t, none⟩
    | .filenameOnly => ⟨uf.file.filename, none, none, none, none, none⟩
  if uf.uploadOk then
    ({ base with imageURL := some (publicUrl bucket uf.file.filename) }, none, true)
  else
    (base,
     some (uf.errTimestamp,
           "Error uploading " ++ uf.file.filename ++ " to GCS: " ++ uf.uploadErrDetail),
     false)

/-- The accumulator of the folder loop: `metadata_list`, `error_log` and the
two counters. -/
structure Acc where
  metadata_list : List GcsRecord
  error_log : List (String × String)
  success_count : Nat
  failure_count : Nat
deriving DecidableEq

/-- One iteration of the folder loop: non-matching filenames are only printed
about; a matched file always appends exactly one row. -/
def stepFile (bucket : String) (acc : Acc) (uf : UploadFile) : Acc :=
  if isImageFilename uf.file.filename then
    let r := processOne bucket uf
    { metadata_list := acc.metadata_list ++ [r.1]
      error_log := acc.error_log ++ r.2.1.toList
      success_count := acc.success_count + (if r.2.2 then 1 else 0)
      failure_count := acc.failure_count + (if r.2.2 then 0 else 1) }
  else acc

/-- Model of `log_errors` of `image_upload_and_metadata.py` (lines 112-124): `none` when
the collection is empty (no file touched), otherwise the written lines, each
`[<timestamp>] <message>` (the writer terminates each line with a newline). -/
def log_errors (error_log : List (String × String)) : Option (List String) :=
  if error_log.isEmpty then none
  else some (error_log.map (fun e => "[" ++ e.1 ++ "] " ++ e.2))

/-- The observable outcome of one run of the upload variant.  `csvFile = none`
means `gcs_image_metadata_with_links.csv` was not opened at all (the
`if metadata_list:` guard failed), so a pre-existing file keeps its contents. -/
structure Run where
  metadata_list : List GcsRecord
  error_log : List (String × String)
  success_count : Nat
  failure_count : Nat
  csvFile : Option (List GcsRecord)
  errFile : Option (List String)
deriving DecidableEq

/-- Model of `upload_images_to_gcs_with_metadata` of `image_upload_and_metadata.py`
(lines 126-207): the folder loop, then the CSV write guarded by
`if metadata_list:`, then `log_errors`. -/
def upload_images_to_gcs_with_metadata (files : List UploadFile) (bucket : String) : Run :=
  let acc := files.foldl (stepFile bucket) ⟨[], [], 0, 0⟩
  { metadata_list := acc.metadata_list
    error_log := acc.error_log
    success_count := acc.success_count
    failure_count := acc.failure_count
    csvFile := if acc.metadata_list.isEmpty then none else some acc.metadata_list
    errFile := log_errors acc.error_log }

/-- The files of the folder that pass the upload variant's filename filter. -/
def matched (files : List UploadFile) : List UploadFile :=
  files.filter fun uf => isImageFilename uf.file.filename

/-- The rows the upload variant's folder loop accumulates: one per matched
file, in order. -/
def rows (bucket : String) (files : List UploadFile) : List GcsRecord :=
  (matched files).map fun uf => (processOne bucket uf).1

/-- The error-log entries the upload variant's folder loop accumulates. -/
def errs (bucket : String) (files : List UploadFile) : List (String × String) :=
  (matched files).filterMap fun uf => (processOne bucket uf).2.1

/-- The number of matched files whose upload succeeds. -/
def nSucc (files : List UploadFile) : Nat :=
  ((matched files).filter fun uf => uf.uploadOk).length

/-- The number of matched files whose upload fails. -/
def nFail (files : List UploadFile) : Nat :=
  ((matched files).filter fun uf => !uf.uploadOk).length

end Upload

/-- The value of the last date/time tag of the dictionary whose value is a
string, if any (used to characterize the loop's last-write-wins behaviour). -/
def lastDateStr : List (Tag × ExifValue) → Option String
  | [] => none
  | e :: rest =>
      match lastDateStr rest with
      | some v => some v
      | none =>
          match e with
          | (t, ExifValue.str v) => if isDateTag t then some v else none
          | _ => none

/-! ## Spec-side definitions -/

/-- Modelled from the spec's words: a string exactly matching the textual
pattern `YYYY:MM:DD HH:MM:SS` — four digits, a colon, two digits, a colon, two
digits, a space, then three two-digit groups separated by colons. -/
def matchesTextualPattern (s : String) : Bool :=
  match s.data with
  | [y1, y2, y3, y4, c1, m1, m2, c2, d1, d2, sp, h1, h2, c3, i1, i2, c4, s1, s2] =>
      y1.isDigit && y2.isDigit && y3.isDigit && y4.isDigit && c1 == ':' &&
      m1.isDigit && m2.isDigit && c2 == ':' && d1.isDigit && d2.isDigit && sp == ' ' &&
      h1.isDigit && h2.isDigit && c3 == ':' && i1.isDigit && i2.isDigit && c4 == ':' &&
      s1.isDigit && s2.isDigit
  | _ => false

/-- Two ASCII digit characters of a number below 100 (used to state the
amended date-parsing claim on strictly formatted inputs). -/
def twoDigits (n : Nat) : List Char := [Nat.digitChar (n / 10), Nat.digitChar (n % 10)]

/-- Four ASCII digit characters of a number below 10000. -/
def fourDigits (n : Nat) : List Char :=
  [Nat.digitChar (n / 1000), Nat.digitChar (n / 100 % 10),
   Nat.digitChar (n / 10 % 10), Nat.digitChar (n % 10)]

/-- The strictly formatted `YYYY:MM:DD HH:MM:SS` string of the given field
values (zero-padded throughout). -/
def strictPatternString (y mo d h mi s : Nat) : String :=
  ⟨fourDigits y ++ ':' :: twoDigits mo ++ ':' :: twoDigits d ++
    ' ' :: twoDigits h ++ ':' :: twoDigits mi ++ ':' :: twoDigits s⟩


/-! ## Helper lemmas -/

theorem stepFold_foldl_char (files : List ImageFile) :
    ∀ acc : List MetadataRecord,
      files.foldl Extract.stepFold acc
        = acc ++ (files.filter fun f => Extract.isImageFilename f.filename).filterMap
            Extract.processFile := by
  induction files with
  | nil => intro acc; simp
  | cons f fs ih =>
      intro acc
      simp only [List.foldl_cons, List.filter_cons, Extract.stepFold]
      cases h : Extract.isImageFilename f.filename with
      | false => simp [ih]
      | true =>
          cases hp : Extract.processFile f with
          | none => simp [hp, ih, List.filterMap_cons]
          | some r => simp [hp, ih, List.filterMap_cons]

theorem extract_metadata_list_eq (files : List ImageFile) :
    (Extract.extract_metadata files).metadata_list
      = (files.filter fun f => Extract.isImageFilename f.filename).filterMap
          Extract.processFile := by
  simpa [Extract.extract_metadata] using stepFold_foldl_char files []

theorem processOne_ok_eq (bucket : String) (uf : Upload.UploadFile) :
    (Upload.processOne bucket uf).2.2 = uf.uploadOk := by
  cases h : uf.uploadOk <;> simp [Upload.processOne, h]

theorem processOne_err_eq (bucket : String) (uf : Upload.UploadFile) :
    (Upload.processOne bucket uf).2.1
      = if uf.uploadOk then none
        else some (uf.errTimestamp,
          "Error uploading " ++ uf.file.filename ++ " to GCS: " ++ uf.uploadErrDetail) := by
  cases h : uf.uploadOk <;> simp [Upload.processOne, h]

theorem processOne_url_eq (bucket : String) (uf : Upload.UploadFile) :
    (Upload.processOne bucket uf).1.imageURL
      = if uf.uploadOk then some (Upload.publicUrl bucket uf.file.filename) else none := by
  cases h : uf.uploadOk <;>
    cases hp : Upload.extract_image_metadata uf.file <;>
      simp [Upload.processOne, h, hp]

theorem processOne_filename_eq (bucket : String) (uf : Upload.UploadFile) :
    (Upload.processOne bucket uf).1.filename = uf.file.filename := by
  cases h : uf.uploadOk <;>
    cases hp : Upload.extract_image_metadata uf.file <;>
      simp [Upload.processOne, h, hp]

theorem upload_foldl_char (bucket : String) (files : List Upload.UploadFile) :
    ∀ acc : Upload.Acc,
      files.foldl (Upload.stepFile bucket) acc
        = ⟨acc.metadata_list ++ Upload.rows bucket files,
           acc.error_log ++ Upload.errs bucket files,
           acc.success_count + Upload.nSucc files,
           acc.failure_count + Upload.nFail files⟩ := by
  induction files with
  | nil =>
      intro acc
      cases acc
      simp [Upload.rows, Upload.errs, Upload.nSucc, Upload.nFail, Upload.matched]
  | cons f fs ih =>
      intro acc
      simp only [List.foldl_cons]
      rw [ih]
      simp only [Upload.stepFile, Upload.rows, Upload.errs, Upload.nSucc, Upload.nFail,
        Upload.matched, List.filter_cons]
      cases h : Upload.isImageFilename f.file.filename with
      | false => simp
      | true =>
          simp only [if_pos rfl, processOne_ok_eq, processOne_err_eq]
          cases h2 : f.uploadOk with
          | false =>
              simp [List.filterMap_cons, processOne_err_eq, h2, List.append_assoc]
              omega
          | true =>
              simp [List.filterMap_cons, processOne_err_eq, h2, List.append_assoc]
              omega

theorem upload_run_eq (files : List Upload.UploadFile) (bucket : String) :
    Upload.upload_images_to_gcs_with_metadata files bucket
      = { metadata_list := Upload.rows bucket files
          error_log := Upload.errs bucket files
          success_count := Upload.nSucc files
          failure_count := Upload.nFail files
          csvFile := if (Upload.rows bucket files).isEmpty then none
                     else some (Upload.rows bucket files)
          errFile := Upload.log_errors (Upload.errs bucket files) } := by
  simp [Upload.upload_images_to_gcs_with_metadata,
    upload_foldl_char bucket files ⟨[], [], 0, 0⟩]


theorem stepTag_date_str (st : LoopState) (t : Tag) (s : String) (st₁ : LoopState)
    (h : stepTag st (t, ExifValue.str s) = some st₁) :
    (isDateTag t = true → (st₁.date, st₁.time) = runDateTag s)
  ∧ (isDateTag t = false → st₁.date = st.date ∧ st₁.time = st.time) := by
  cases t with
  | GPSInfo => simp [stepTag] at h
  | DateTime =>
      simp [stepTag, isDateTag] at h
      subst h
      exact ⟨fun _ => Prod.mk.eta, fun hc => by simp [isDateTag] at hc⟩
  | DateTimeOriginal =>
      simp [stepTag, isDateTag] at h
      subst h
      exact ⟨fun _ => Prod.mk.eta, fun hc => by simp [isDateTag] at hc⟩
  | DateTimeDigitized =>
      simp [stepTag, isDateTag] at h
      subst h
      exact ⟨fun _ => Prod.mk.eta, fun hc => by simp [isDateTag] at hc⟩
  | Other id =>
      simp [stepTag, isDateTag] at h
      subst h
      exact ⟨fun hc => by simp [isDateTag] at hc, fun _ => ⟨rfl, rfl⟩⟩

theorem stepTag_gps_pres (st : LoopState) (t : Tag) (sub : List (GpsTag × PyVal))
    (st₁ : LoopState) (h : stepTag st (t, ExifValue.gps sub) = some st₁) :
    st₁.date = st.date ∧ st₁.time = st.time := by
  cases t with
  | GPSInfo =>
      simp only [stepTag] at h
      split at h
      · split at h
        · split at h
          · injection h with h2
            subst h2
            exact ⟨rfl, rfl⟩
          · exact absurd h (by simp)
        · exact absurd h (by simp)
      · injection h with h2
        subst h2
        exact ⟨rfl, rfl⟩
  | DateTime => simp [stepTag, isDateTag] at h
  | DateTimeOriginal => simp [stepTag, isDateTag] at h
  | DateTimeDigitized => simp [stepTag, isDateTag] at h
  | Other id =>
      simp [stepTag, isDateTag] at h
      subst h
      exact ⟨rfl, rfl⟩

theorem stepTag_other_pres (st : LoopState) (t : Tag) (st₁ : LoopState)
    (h : stepTag st (t, ExifValue.other) = some st₁) :
    st₁.date = st.date ∧ st₁.time = st.time := by
  cases t with
  | GPSInfo => simp [stepTag] at h
  | DateTime => simp [stepTag, isDateTag] at h
  | DateTimeOriginal => simp [stepTag, isDateTag] at h
  | DateTimeDigitized => simp [stepTag, isDateTag] at h
  | Other id =>
      simp [stepTag, isDateTag] at h
      subst h
      exact ⟨rfl, rfl⟩

theorem runEntries_date_char (entries : List (Tag × ExifValue)) :
    ∀ st st' : LoopState, runEntries st entries = some st' →
      (st'.date, st'.time)
        = match lastDateStr entries with
          | some v => runDateTag v
          | none => (st.date, st.time) := by
  induction entries with
  | nil =>
      intro st st' h
      simp [runEntries] at h
      subst h
      simp [lastDateStr]
  | cons e rest ih =>
      intro st st' h
      simp only [runEntries] at h
      cases hstep : stepTag st e with
      | none => rw [hstep] at h; exact absurd h (by simp)
      | some st₁ =>
          rw [hstep] at h
          have hrest := ih st₁ st' h
          obtain ⟨t, v⟩ := e
          cases hld : lastDateStr rest with
          | some w =>
              rw [hld] at hrest
              have hcons : lastDateStr ((t, v) :: rest) = some w := by
                simp [lastDateStr, hld]
              rw [hcons]
              exact hrest
          | none =>
              rw [hld] at hrest
              cases v with
              | str s =>
                  obtain ⟨hT, hF⟩ := stepTag_date_str st t s st₁ hstep
                  cases hdt : isDateTag t with
                  | true =>
                      have hcons : lastDateStr ((t, ExifValue.str s) :: rest) = some s := by
                        simp [lastDateStr, hld, hdt]
                      rw [hcons]
                      exact hrest.trans (hT hdt)
                  | false =>
                      have hcons : lastDateStr ((t, ExifValue.str s) :: rest) = none := by
                        simp [lastDateStr, hld, hdt]
                      rw [hcons]
                      obtain ⟨h1, h2⟩ := hF hdt
                      rw [hrest, h1, h2]
              | gps sub =>
                  obtain ⟨h1, h2⟩ := stepTag_gps_pres st t sub st₁ hstep
                  have hcons : lastDateStr ((t, ExifValue.gps sub) :: rest) = none := by
                    simp [lastDateStr, hld]
                  rw [hcons]
                  rw [hrest, h1, h2]
              | other =>
                  obtain ⟨h1, h2⟩ := stepTag_other_pres st t st₁ hstep
                  have hcons : lastDateStr ((t, ExifValue.other) :: rest) = none := by
                    simp [lastDateStr, hld]
                  rw [hcons]
                  rw [hrest, h1, h2]

theorem runDateTag_lockstep (v : String) :
    (runDateTag v).1.isSome = (runDateTag v).2.isSome := by
  cases h : strptimeExif v <;> simp [runDateTag, h]

theorem processEntries_lockstep (entries : List (Tag × ExifValue)) (st' : LoopState)
    (h : processEntries entries = some st') : st'.date.isSome = st'.time.isSome := by
  have hc := runEntries_date_char entries initState st' h
  cases hld : lastDateStr entries with
  | none =>
      rw [hld] at hc
      have h1 : st'.date = none := congrArg Prod.fst hc
      have h2 : st'.time = none := congrArg Prod.snd hc
      rw [h1, h2]
  | some w =>
      rw [hld] at hc
      have h1 : st'.date = (runDateTag w).1 := congrArg Prod.fst hc
      have h2 : st'.time = (runDateTag w).2 := congrArg Prod.snd hc
      rw [h1, h2]
      exact runDateTag_lockstep w

theorem extract_payload_lockstep (f : ImageFile) (la lo : Option ℚ) (d t : Option String)
    (h : Upload.extract_image_metadata f = .full la lo d t) : d.isSome = t.isSome := by
  rcases f with ⟨name, exif⟩
  cases exif with
  | error => simp [Upload.extract_image_metadata] at h
  | noneData =>
      simp [Upload.extract_image_metadata] at h
      obtain ⟨-, -, h3, h4⟩ := h
      rw [← h3, ← h4]
  | dict entries =>
      simp only [Upload.extract_image_metadata] at h
      split at h
      · simp at h
        obtain ⟨-, -, h3, h4⟩ := h
        rw [← h3, ← h4]
      · cases hp : processEntries entries with
        | none => rw [hp] at h; simp at h
        | some st =>
            rw [hp] at h
            simp at h
            obtain ⟨-, -, h3, h4⟩ := h
            rw [← h3, ← h4]
            exact processEntries_lockstep entries st hp

/-! ## Claims -/

/-- C1, counterexample: in the base variant a file that matches the filename
filter but whose processing raises (here: `Image.open` fails) produces no
record at all — the aggregated output of a one-file folder is empty, so the
claimed invariant fails for the base variant. -/
theorem c1_record_always_emitted_counterexample :
    Extract.isImageFilename "a.jpg" = true
  ∧ (Extract.extract_metadata [⟨"a.jpg", ExifData.error⟩]).metadata_list = [] :=
  ⟨by decide, by decide⟩

/-- C1, amended: in the upload variant one record is emitted for every file
matched by the filename filter (one row per matched file, carrying that file's
name) even when extraction or upload fails; in the base variant a record is
emitted exactly for those matched files whose processing raises no exception —
a matched file whose processing raises is dropped from the output. -/
theorem c1_record_always_emitted_amended (files : List ImageFile)
    (ufiles : List Upload.UploadFile) (bucket : String) :
    (Extract.extract_metadata files).metadata_list
        = (files.filter fun f => Extract.isImageFilename f.filename).filterMap
            Extract.processFile
  ∧ (Upload.upload_images_to_gcs_with_metadata ufiles bucket).metadata_list
        = ((Upload.matched ufiles).map fun uf => (Upload.processOne bucket uf).1)
  ∧ (∀ uf : Upload.UploadFile, (Upload.processOne bucket uf).1.filename = uf.file.filename) :=
  ⟨extract_metadata_list_eq files,
   by rw [upload_run_eq]; rfl,
   fun uf => processOne_filename_eq bucket uf⟩

/-- C2: on a degrees/minutes/seconds triple of non-negative rationals and a
reference string in `{N, S, E, W}`, both variants' `dms_to_decimal` return
`some` of `degrees + minutes/60 + seconds/3600`, negated for `S` and `W` —
in particular no exception is raised on this domain. -/
theorem c2_dms_to_decimal_correct (d m s : ℚ) (ref : String)
    (_hd : 0 ≤ d) (_hm : 0 ≤ m) (_hs : 0 ≤ s) :
    ((ref = "N" ∨ ref = "E") →
        Extract.dms_to_decimal (PyVal.tuple3 d m s) (PyVal.str ref)
            = some (d + m / 60 + s / 3600)
      ∧ Upload.dms_to_decimal (PyVal.tuple3 d m s) (PyVal.str ref)
            = some (d + m / 60 + s / 3600))
  ∧ ((ref = "S" ∨ ref = "W") →
        Extract.dms_to_decimal (PyVal.tuple3 d m s) (PyVal.str ref)
            = some (-(d + m / 60 + s / 3600))
      ∧ Upload.dms_to_decimal (PyVal.tuple3 d m s) (PyVal.str ref)
            = some (-(d + m / 60 + s / 3600))) := by
  constructor
  · rintro (rfl | rfl) <;> exact ⟨rfl, rfl⟩
  · rintro (rfl | rfl) <;> exact ⟨rfl, rfl⟩

/-- C2, witness: the spec's own example, `(10, 30, 0)` with reference `N`
gives `10.5` and with reference `S` gives `-10.5`. -/
theorem c2_dms_to_decimal_witness :
    Extract.dms_to_decimal (PyVal.tuple3 10 30 0) (PyVal.str "N") = some (21 / 2)
  ∧ Extract.dms_to_decimal (PyVal.tuple3 10 30 0) (PyVal.str "S") = some (-(21 / 2)) := by
  have h := c2_dms_to_decimal_correct 10 30 0 "N" (by norm_num) (by norm_num) (by norm_num)
  have h2 := c2_dms_to_decimal_correct 10 30 0 "S" (by norm_num) (by norm_num) (by norm_num)
  constructor
  · rw [(h.1 (Or.inl rfl)).1]
    exact congrArg some (by norm_num)
  · rw [(h2.2 (Or.inl rfl)).1]
    exact congrArg some (by norm_num)

/-- C3, counterexample: a dictionary whose `DateTime` value parses
successfully (to date `07/04/2023`) followed by a `DateTimeOriginal` value
that fails to parse yields a record with both date and time absent — the
later failed parse does overwrite the earlier success. -/
theorem c3_no_overwrite_counterexample :
    (runDateTag "2023:07:04 10:15:30").1 = some "07/04/2023"
  ∧ Extract.processFile ⟨"a.jpg", ExifData.dict
        [(Tag.DateTime, ExifValue.str "2023:07:04 10:15:30"),
         (Tag.DateTimeOriginal, ExifValue.str "not-a-date")]⟩
      = some ⟨"a.jpg", none, none, none, none⟩ :=
  ⟨rfl, rfl⟩

/-- C3, amended: the tag loop applies last-write-wins including failed
parses — whenever the loop completes without exception, the record's date and
time are those produced by the **last** date/time tag of the dictionary
(absent when its value fails to parse, whatever earlier tags yielded), and
absent when there is no date/time tag. -/
theorem c3_no_overwrite_amended (entries : List (Tag × ExifValue)) (st' : LoopState)
    (h : processEntries entries = some st') :
    (st'.date, st'.time)
      = match lastDateStr entries with
        | some v => runDateTag v
        | none => (none, none) := by
  have hc := runEntries_date_char entries initState st' h
  cases hld : lastDateStr entries with
  | none => rw [hld] at hc; exact hc
  | some w => rw [hld] at hc; exact hc

/-- C3, amended-claim witness at the counterexample's input: the loop
completes, and date/time equal the (failed) parse of the last tag's value. -/
theorem c3_no_overwrite_amended_witness :
    processEntries [(Tag.DateTime, ExifValue.str "2023:07:04 10:15:30"),
                    (Tag.DateTimeOriginal, ExifValue.str "not-a-date")]
        = some (⟨[], none, none, none, none⟩ : LoopState)
  ∧ ((none : Option String), (none : Option String))
      = match lastDateStr [(Tag.DateTime, ExifValue.str "2023:07:04 10:15:30"),
                           (Tag.DateTimeOriginal, ExifValue.str "not-a-date")] with
        | some v => runDateTag v
        | none => (none, none) :=
  ⟨by decide,
   c3_no_overwrite_amended
     [(Tag.DateTime, ExifValue.str "2023:07:04 10:15:30"),
      (Tag.DateTimeOriginal, ExifValue.str "not-a-date")]
     ⟨[], none, none, none, none⟩ (by decide)⟩

/-- C4, counterexample: in the upload variant, a run in which zero files match
the extension filter does not open the CSV file at all (`if metadata_list:`
fails), so prior contents survive — the claimed fresh-creation fails for the
upload variant. -/
theorem c4_csv_truncated_counterexample :
    Upload.isImageFilename "readme.txt" = false
  ∧ (Upload.upload_images_to_gcs_with_metadata
        [⟨⟨"readme.txt", ExifData.noneData⟩, true, "", ""⟩] "bucket").csvFile = none :=
  ⟨by decide, by decide⟩

/-- C4, amended: the base variant creates its CSV fresh (truncating) on every
run, also with zero matched files; the upload variant creates its CSV fresh
only when at least one file matched the extension filter — with zero matched
files the CSV is not touched and a previous run's rows survive. -/
theorem c4_csv_truncated_amended (files : List ImageFile)
    (ufiles : List Upload.UploadFile) (bucket : String) :
    (Extract.extract_metadata files).csvFile
        = some ((Extract.extract_metadata files).metadata_list)
  ∧ ((Upload.upload_images_to_gcs_with_metadata ufiles bucket).csvFile = none
        ↔ Upload.matched ufiles = [])
  ∧ ((Upload.upload_images_to_gcs_with_metadata ufiles bucket).csvFile = none
      ∨ (Upload.upload_images_to_gcs_with_metadata ufiles bucket).csvFile
          = some ((Upload.upload_images_to_gcs_with_metadata ufiles bucket).metadata_list)) := by
  refine ⟨rfl, ?_, ?_⟩
  · rw [upload_run_eq]
    cases hm : Upload.matched ufiles with
    | nil => simp [Upload.rows, hm]
    | cons a l => simp [Upload.rows, hm]
  · rw [upload_run_eq]
    cases hr : (Upload.rows bucket ufiles).isEmpty with
    | true => simp [hr]
    | false => simp [hr]

/-- C7: in the upload variant the error log file is written iff the collected
error list is non-empty, and its lines are exactly one `[<timestamp>] <message>`
per collected pair, in order. -/
theorem c7_error_log_iff (ufiles : List Upload.UploadFile) (bucket : String) :
    ((Upload.upload_images_to_gcs_with_metadata ufiles bucket).errFile = none
      ↔ (Upload.upload_images_to_gcs_with_metadata ufiles bucket).error_log = [])
  ∧ (Upload.upload_images_to_gcs_with_metadata ufiles bucket).errFile
      = if (Upload.upload_images_to_gcs_with_metadata ufiles bucket).error_log = [] then none
        else some ((Upload.upload_images_to_gcs_with_metadata ufiles bucket).error_log.map
            fun e => "[" ++ e.1 ++ "] " ++ e.2) := by
  rw [upload_run_eq]
  cases h : Upload.errs bucket ufiles with
  | nil => simp [Upload.log_errors, h]
  | cons a l => simp [Upload.log_errors, h]

/-- C8: date and time are present or absent in lockstep in every record of
both variants: in any record produced by the base variant's per-file
processing, and in any row produced by the upload variant's per-file loop
body. -/
theorem c8_date_time_lockstep (f : ImageFile) (r : MetadataRecord) (bucket : String)
    (uf : Upload.UploadFile) :
    (Extract.processFile f = some r → r.date.isSome = r.time.isSome)
  ∧ (Upload.processOne bucket uf).1.date.isSome
      = (Upload.processOne bucket uf).1.time.isSome := by
  constructor
  · intro h
    rcases f with ⟨name, exif⟩
    cases exif with
    | error => simp [Extract.processFile] at h
    | noneData =>
        simp [Extract.processFile] at h
        rw [← h]
    | dict entries =>
        simp only [Extract.processFile] at h
        split at h
        · simp at h
          rw [← h]
        · cases hp : processEntries entries with
          | none => rw [hp] at h; simp at h
          | some st =>
              rw [hp] at h
              simp at h
              rw [← h]
              exact processEntries_lockstep entries st hp
  · cases hp : Upload.extract_image_metadata uf.file with
    | filenameOnly => cases ho : uf.uploadOk <;> simp [Upload.processOne, hp, ho]
    | full la lo d t =>
        have hl := extract_payload_lockstep uf.file la lo d t hp
        cases ho : uf.uploadOk <;> simp [Upload.processOne, hp, ho, hl]

/-- C8, witness at a concrete no-EXIF file (both fields absent) and a concrete
upload row. -/
theorem c8_date_time_lockstep_witness :
    ((none : Option String).isSome = (none : Option String).isSome)
  ∧ (Upload.processOne "b" ⟨⟨"b.jpg", ExifData.noneData⟩, true, "", ""⟩).1.date.isSome
      = (Upload.processOne "b" ⟨⟨"b.jpg", ExifData.noneData⟩, true, "", ""⟩).1.time.isSome :=
  ⟨(c8_date_time_lockstep ⟨"a.jpg", ExifData.noneData⟩ ⟨"a.jpg", none, none, none, none⟩
      "b" ⟨⟨"b.jpg", ExifData.noneData⟩, true, "", ""⟩).1 rfl,
   (c8_date_time_lockstep ⟨"a.jpg", ExifData.noneData⟩ ⟨"a.jpg", none, none, none, none⟩
      "b" ⟨⟨"b.jpg", ExifData.noneData⟩, true, "", ""⟩).2⟩

/-- C9: the two variants' coordinate converters are extensionally equal. -/
theorem c9_converters_extensionally_equal (dms ref : PyVal) :
    Extract.dms_to_decimal dms ref = Upload.dms_to_decimal dms ref := rfl

/-- C10: in the upload variant, the success and failure counters count exactly
the upload outcomes of matched files (extraction outcomes are not counted);
one row is produced per matched file, whose `ImageURL` is determined solely by
the upload outcome — so an extraction failure combined with a successful
upload yields a row with `ImageURL` present and latitude, longitude, date and
time all absent, as the concrete instance shows. -/
theorem c10_upload_regardless_of_extraction (bucket : String)
    (ufiles : List Upload.UploadFile) :
    (Upload.upload_images_to_gcs_with_metadata ufiles bucket).success_count
        = ((Upload.matched ufiles).filter fun uf => uf.uploadOk).length
  ∧ (Upload.upload_images_to_gcs_with_metadata ufiles bucket).failure_count
        = ((Upload.matched ufiles).filter fun uf => !uf.uploadOk).length
  ∧ (Upload.upload_images_to_gcs_with_metadata ufiles bucket).metadata_list
        = ((Upload.matched ufiles).map fun uf => (Upload.processOne bucket uf).1)
  ∧ (∀ uf : Upload.UploadFile, (Upload.processOne bucket uf).1.imageURL
        = if uf.uploadOk then some (Upload.publicUrl bucket uf.file.filename) else none)
  ∧ (Upload.processOne bucket ⟨⟨"a.jpg", ExifData.error⟩, true, "", ""⟩).1
        = ⟨"a.jpg", none, none, none, none, some (Upload.publicUrl bucket "a.jpg")⟩ := by
  refine ⟨?_, ?_, ?_, fun uf => processOne_url_eq bucket uf, rfl⟩
  · rw [upload_run_eq]
    rfl
  · rw [upload_run_eq]
    rfl
  · rw [upload_run_eq]
    rfl

/-- C5: on a `GPSInfo` entry that the loop body completes without exception,
the coordinates are set (by invoking the coordinate converter on the stored
values) exactly when all four of `GPSLatitude`, `GPSLatitudeRef`,
`GPSLongitude`, `GPSLongitudeRef` are present and truthy in the resolved GPS
sub-tag mapping; when any of the four is missing (or falsy), latitude and
longitude are left exactly as they were — in particular they remain absent. -/
theorem c5_gps_requires_all_four (st : LoopState) (subEntries : List (GpsTag × PyVal))
    (st₁ : LoopState)
    (h : stepTag st (Tag.GPSInfo, ExifValue.gps subEntries) = some st₁) :
    (allFourPresent (updatedGpsInfo st subEntries) = false →
        st₁.latitude = st.latitude ∧ st₁.longitude = st.longitude)
  ∧ (allFourPresent (updatedGpsInfo st subEntries) = true →
      ∀ lat latRef lon lonRef : PyVal,
        dictGet (updatedGpsInfo st subEntries) GpsTag.GPSLatitude = some lat →
        dictGet (updatedGpsInfo st subEntries) GpsTag.GPSLatitudeRef = some latRef →
        dictGet (updatedGpsInfo st subEntries) GpsTag.GPSLongitude = some lon →
        dictGet (updatedGpsInfo st subEntries) GpsTag.GPSLongitudeRef = some lonRef →
        st₁.latitude = Extract.dms_to_decimal lat latRef
        ∧ st₁.longitude = Extract.dms_to_decimal lon lonRef) := by
  simp only [stepTag] at h
  constructor
  · intro hfalse
    split at h
    · have hcond : allFourPresent (updatedGpsInfo st subEntries) = true := by assumption
      rw [hfalse] at hcond
      cases hcond
    · injection h with h2
      subst h2
      exact ⟨rfl, rfl⟩
  · intro htrue lat latRef lon lonRef hlat hlatref hlon hlonref
    split at h
    · rw [hlat, hlatref, hlon, hlonref] at h
      simp only [] at h
      cases hla : Extract.dms_to_decimal lat latRef with
      | none => rw [hla] at h; simp at h
      | some la =>
          cases hlo : Extract.dms_to_decimal lon lonRef with
          | none => rw [hla, hlo] at h; simp at h
          | some lo =>
              rw [hla, hlo] at h
              simp at h
              rw [← h]
              exact ⟨rfl, rfl⟩
    · have hcond : allFourPresent (updatedGpsInfo st subEntries) = false := by
        rename_i hc
        simpa [allFourPresent] using hc
      rw [htrue] at hcond
      cases hcond

/-- C5, witness: a mapping holding latitude, latitude reference and longitude
but no longitude reference leaves both coordinates absent even though the
other three sub-fields are present. -/
theorem c5_gps_requires_all_four_witness :
    (stepTag initState (Tag.GPSInfo, ExifValue.gps
        [(GpsTag.GPSLatitude, PyVal.tuple3 10 30 0),
         (GpsTag.GPSLatitudeRef, PyVal.str "N"),
         (GpsTag.GPSLongitude, PyVal.tuple3 1 2 3)])).isSome = true
  ∧ ((none : Option ℚ) = none ∧ (none : Option ℚ) = none) := by
  refine ⟨by decide, ?_⟩
  exact (c5_gps_requires_all_four initState
    [(GpsTag.GPSLatitude, PyVal.tuple3 10 30 0),
     (GpsTag.GPSLatitudeRef, PyVal.str "N"),
     (GpsTag.GPSLongitude, PyVal.tuple3 1 2 3)]
    ⟨[(GpsTag.GPSLatitude, PyVal.tuple3 10 30 0),
      (GpsTag.GPSLatitudeRef, PyVal.str "N"),
      (GpsTag.GPSLongitude, PyVal.tuple3 1 2 3)], none, none, none, none⟩
    (by decide)).1 (by decide)

/-- C6, counterexample: `"2023:02:30 10:15:30"` matches the textual pattern
`YYYY:MM:DD HH:MM:SS` exactly, yet February has no 30th day, so `strptime`
raises `ValueError` and the record's date and time are both absent instead of
`02/30/2023` and `10:15:30`. -/
theorem c6_datetime_pattern_counterexample :
    matchesTextualPattern "2023:02:30 10:15:30" = true
  ∧ Extract.processFile ⟨"a.jpg", ExifData.dict
        [(Tag.DateTime, ExifValue.str "2023:02:30 10:15:30")]⟩
      = some ⟨"a.jpg", none, none, none, none⟩ :=
  ⟨by decide, by decide⟩

theorem digitChar_props (k : Nat) (hk : k ≤ 9) :
    (Nat.digitChar k).isDigit = true ∧ digitVal (Nat.digitChar k) = k
      ∧ (Nat.digitChar k).isWhitespace = false := by
  interval_cases k <;> exact ⟨by decide, by decide, by decide⟩

theorem read4_fourDigits (y : Nat) (hy : y ≤ 9999) (rest : List Char) :
    read4 (fourDigits y ++ rest) = some (y, rest) := by
  obtain ⟨ha, ha2, -⟩ := digitChar_props (y / 1000) (by omega)
  obtain ⟨hb, hb2, -⟩ := digitChar_props (y / 100 % 10) (by omega)
  obtain ⟨hc, hc2, -⟩ := digitChar_props (y / 10 % 10) (by omega)
  obtain ⟨hd, hd2, -⟩ := digitChar_props (y % 10) (by omega)
  simp [fourDigits, read4, ha, hb, hc, hd, ha2, hb2, hc2, hd2]
  omega


theorem skipWs1_space (cs : List Char) (c : Char) (hc : c.isWhitespace = false) :
    skipWs1 (' ' :: c :: cs) = some (c :: cs) := by
  simp [skipWs1, List.dropWhile, hc]

theorem expectChar_cons (c : Char) (rest : List Char) :
    expectChar c (c :: rest) = some rest := by
  simp [expectChar]

theorem daysInMonth_le_31 (y mo : Nat) : daysInMonth y mo ≤ 31 := by
  unfold daysInMonth
  split
  · split <;> omega
  · split <;> omega

theorem char_toNat_inj (a b : Char) (h : a.toNat = b.toNat) : a = b := by
  rcases a with ⟨⟨⟨a1, ha⟩⟩, hva⟩
  rcases b with ⟨⟨⟨b1, hb⟩⟩, hvb⟩
  simp [Char.toNat, UInt32.toNat] at h
  subst h
  rfl

theorem digitChar_toNat (k : Nat) (hk : k ≤ 9) : (Nat.digitChar k).toNat = 48 + k := by
  interval_cases k <;> decide

theorem digit_char_eq (c : Char) (h : c.isDigit = true) :
    ∃ k, k ≤ 9 ∧ c = Nat.digitChar k := by
  simp [Char.isDigit] at h
  obtain ⟨h1, h2⟩ := h
  have h1n : 48 ≤ c.toNat := h1
  have h2n : c.toNat ≤ 57 := h2
  refine ⟨c.toNat - 48, by omega, ?_⟩
  apply char_toNat_inj
  rw [digitChar_toNat (c.toNat - 48) (by omega)]
  omega

theorem readField2_twoDigits_if (valid2 valid1 : Nat → Bool) (n : Nat) (hn : n ≤ 99)
    (rest : List Char) :
    readField2 valid2 valid1 (twoDigits n ++ rest)
      = if valid2 n then some (n, rest) else none := by
  obtain ⟨ha, ha2, -⟩ := digitChar_props (n / 10) (by omega)
  obtain ⟨hb, hb2, -⟩ := digitChar_props (n % 10) (by omega)
  have hval : n / 10 * 10 + n % 10 = n := by omega
  simp [twoDigits, readField2, ha, hb, ha2, hb2, hval]

theorem parse_strict_general (y mo d hr mi sec : Nat) (hy : y ≤ 9999) (hmo : mo ≤ 99)
    (hd : d ≤ 99) (hh : hr ≤ 99) (hmi : mi ≤ 99) (hs : sec ≤ 99) :
    parseFieldsCore (fourDigits y ++ ':' :: twoDigits mo ++ ':' :: twoDigits d ++
        ' ' :: twoDigits hr ++ ':' :: twoDigits mi ++ ':' :: twoDigits sec)
      = if monthValid2 mo && dayValid2 d && hourValid2 hr && minuteValid2 mi &&
            secondValid2 sec
        then some ⟨y, mo, d, hr, mi, sec⟩ else none := by
  obtain ⟨-, -, hw⟩ := digitChar_props (hr / 10) (by omega)
  simp only [parseFieldsCore, List.cons_append, List.append_assoc]
  rw [read4_fourDigits y hy]
  simp only [Option.bind_eq_bind, Option.some_bind]
  rw [expectChar_cons]
  simp only [Option.some_bind]
  rw [readField2_twoDigits_if monthValid2 oneToNine mo (by omega)]
  cases hmoV : monthValid2 mo with
  | false => simp [hmoV]
  | true =>
      simp only [reduceIte, Option.some_bind, Bool.true_and]
      rw [expectChar_cons]
      simp only [Option.some_bind]
      rw [readField2_twoDigits_if dayValid2 oneToNine d (by omega)]
      cases hdV : dayValid2 d with
      | false => simp [hdV]
      | true =>
          simp only [reduceIte, Option.some_bind, Bool.true_and]
          rw [show (' ' :: (twoDigits hr ++ ':' :: (twoDigits mi ++ ':' :: twoDigits sec)))
                = ' ' :: Nat.digitChar (hr / 10) :: (Nat.digitChar (hr % 10) ::
                    (':' :: (twoDigits mi ++ ':' :: twoDigits sec))) from rfl]
          rw [skipWs1_space _ _ hw]
          simp only [Option.some_bind]
          rw [show (Nat.digitChar (hr / 10) :: Nat.digitChar (hr % 10) ::
                (':' :: (twoDigits mi ++ ':' :: twoDigits sec)))
              = twoDigits hr ++ (':' :: (twoDigits mi ++ ':' :: twoDigits sec)) from rfl]
          rw [readField2_twoDigits_if hourValid2 anyDigit hr (by omega)]
          cases hhV : hourValid2 hr with
          | false => simp [hhV]
          | true =>
              simp only [reduceIte, Option.some_bind, Bool.true_and]
              rw [expectChar_cons]
              simp only [Option.some_bind]
              rw [readField2_twoDigits_if minuteValid2 anyDigit mi (by omega)]
              cases hmiV : minuteValid2 mi with
              | false => simp [hmiV]
              | true =>
                  simp only [reduceIte, Option.some_bind, Bool.true_and]
                  rw [expectChar_cons]
                  simp only [Option.some_bind]
                  rw [show twoDigits sec = twoDigits sec ++ ([] : List Char)
                        from (List.append_nil _).symm]
                  rw [readField2_twoDigits_if secondValid2 anyDigit sec (by omega)]
                  cases hsV : secondValid2 sec with
                  | false => simp [hsV]
                  | true => simp [hsV]

theorem validDatetime_implies_fieldValid (y mo d hr mi sec : Nat)
    (h : validDatetime ⟨y, mo, d, hr, mi, sec⟩ = true) :
    (monthValid2 mo && dayValid2 d && hourValid2 hr && minuteValid2 mi &&
      secondValid2 sec) = true := by
  have hle := daysInMonth_le_31 y mo
  simp only [validDatetime, Bool.and_eq_true, decide_eq_true_eq] at h
  simp only [monthValid2, dayValid2, hourValid2, minuteValid2, secondValid2,
    Bool.and_eq_true, decide_eq_true_eq]
  omega

theorem runDateTag_strict_char (y mo d hr mi sec : Nat) (hy : y ≤ 9999) (hmo : mo ≤ 99)
    (hd : d ≤ 99) (hh : hr ≤ 99) (hmi : mi ≤ 99) (hs : sec ≤ 99) :
    runDateTag (strictPatternString y mo d hr mi sec)
      = if validDatetime ⟨y, mo, d, hr, mi, sec⟩
        then (some (renderDateMDY ⟨y, mo, d, hr, mi, sec⟩),
              some (renderTimeHMS ⟨y, mo, d, hr, mi, sec⟩))
        else (none, none) := by
  have hgen := parse_strict_general y mo d hr mi sec hy hmo hd hh hmi hs
  have hstr : strptimeExif (strictPatternString y mo d hr mi sec)
      = if validDatetime ⟨y, mo, d, hr, mi, sec⟩
        then some ⟨y, mo, d, hr, mi, sec⟩ else none := by
    unfold strptimeExif
    rw [show (strictPatternString y mo d hr mi sec).data
          = (fourDigits y ++ ':' :: twoDigits mo ++ ':' :: twoDigits d ++
              ' ' :: twoDigits hr ++ ':' :: twoDigits mi ++ ':' :: twoDigits sec) from rfl]
    rw [hgen]
    cases hb : (monthValid2 mo && dayValid2 d && hourValid2 hr && minuteValid2 mi &&
        secondValid2 sec) with
    | true => simp
    | false =>
        have hvd : validDatetime ⟨y, mo, d, hr, mi, sec⟩ = false := by
          cases hvd2 : validDatetime ⟨y, mo, d, hr, mi, sec⟩ with
          | false => rfl
          | true =>
              have hfv := validDatetime_implies_fieldValid y mo d hr mi sec hvd2
              rw [hb] at hfv
              cases hfv
        simp [hvd]
  unfold runDateTag
  rw [hstr]
  cases hvd : validDatetime ⟨y, mo, d, hr, mi, sec⟩ with
  | true => simp
  | false => simp

theorem matchesTextualPattern_strict (v : String) (hv : matchesTextualPattern v = true) :
    ∃ y mo d hr mi sec : Nat, y ≤ 9999 ∧ mo ≤ 99 ∧ d ≤ 99 ∧ hr ≤ 99 ∧ mi ≤ 99 ∧
      sec ≤ 99 ∧ v = strictPatternString y mo d hr mi sec := by
  obtain ⟨cs⟩ := v
  rcases cs with _ | ⟨y1, _ | ⟨y2, _ | ⟨y3, _ | ⟨y4, _ | ⟨c1, _ | ⟨m1, _ | ⟨m2, _ | ⟨c2,
    _ | ⟨d1, _ | ⟨d2, _ | ⟨sp, _ | ⟨h1, _ | ⟨h2, _ | ⟨c3, _ | ⟨i1, _ | ⟨i2, _ | ⟨c4,
    _ | ⟨s1, _ | ⟨s2, _ | ⟨z, rest⟩⟩⟩⟩⟩⟩⟩⟩⟩⟩⟩⟩⟩⟩⟩⟩⟩⟩⟩⟩
  all_goals simp only [matchesTextualPattern, Bool.and_eq_true, beq_iff_eq,
    and_assoc, Bool.false_eq_true] at hv
  obtain ⟨hy1, hy2, hy3, hy4, hc1, hm1, hm2, hc2, hd1A, hd2A, hsp, hh1, hh2, hc3,
    hi1, hi2, hc4, hs1, hs2⟩ := hv
  subst hc1; subst hc2; subst hsp; subst hc3; subst hc4
  obtain ⟨k1, hk1, rfl⟩ := digit_char_eq y1 hy1
  obtain ⟨k2, hk2, rfl⟩ := digit_char_eq y2 hy2
  obtain ⟨k3, hk3, rfl⟩ := digit_char_eq y3 hy3
  obtain ⟨k4, hk4, rfl⟩ := digit_char_eq y4 hy4
  obtain ⟨a1, hA1, rfl⟩ := digit_char_eq m1 hm1
  obtain ⟨a2, hA2, rfl⟩ := digit_char_eq m2 hm2
  obtain ⟨b1, hB1, rfl⟩ := digit_char_eq d1 hd1A
  obtain ⟨b2, hB2, rfl⟩ := digit_char_eq d2 hd2A
  obtain ⟨e1, hE1, rfl⟩ := digit_char_eq h1 hh1
  obtain ⟨e2, hE2, rfl⟩ := digit_char_eq h2 hh2
  obtain ⟨f1, hF1, rfl⟩ := digit_char_eq i1 hi1
  obtain ⟨f2, hF2, rfl⟩ := digit_char_eq i2 hi2
  obtain ⟨g1, hG1, rfl⟩ := digit_char_eq s1 hs1
  obtain ⟨g2, hG2, rfl⟩ := digit_char_eq s2 hs2
  refine ⟨((k1 * 10 + k2) * 10 + k3) * 10 + k4, a1 * 10 + a2, b1 * 10 + b2,
    e1 * 10 + e2, f1 * 10 + f2, g1 * 10 + g2,
    by omega, by omega, by omega, by omega, by omega, by omega, ?_⟩
  have hq1 : (((k1 * 10 + k2) * 10 + k3) * 10 + k4) / 1000 = k1 := by omega
  have hq2 : (((k1 * 10 + k2) * 10 + k3) * 10 + k4) / 100 % 10 = k2 := by omega
  have hq3 : (((k1 * 10 + k2) * 10 + k3) * 10 + k4) / 10 % 10 = k3 := by omega
  have hq4 : (((k1 * 10 + k2) * 10 + k3) * 10 + k4) % 10 = k4 := by omega
  have hA3 : (a1 * 10 + a2) / 10 = a1 := by omega
  have hA4 : (a1 * 10 + a2) % 10 = a2 := by omega
  have hB3 : (b1 * 10 + b2) / 10 = b1 := by omega
  have hB4 : (b1 * 10 + b2) % 10 = b2 := by omega
  have hE3 : (e1 * 10 + e2) / 10 = e1 := by omega
  have hE4 : (e1 * 10 + e2) % 10 = e2 := by omega
  have hF3 : (f1 * 10 + f2) / 10 = f1 := by omega
  have hF4 : (f1 * 10 + f2) % 10 = f2 := by omega
  have hG3 : (g1 * 10 + g2) / 10 = g1 := by omega
  have hG4 : (g1 * 10 + g2) % 10 = g2 := by omega
  simp only [strictPatternString, fourDigits, twoDigits, hq1, hq2, hq3, hq4,
    hA3, hA4, hB3, hB4, hE3, hE4, hF3, hF4, hG3, hG4, List.cons_append,
    List.nil_append, List.append_assoc]

/-- C6, amended: every value exactly matching the textual pattern
`YYYY:MM:DD HH:MM:SS` is the strict rendering of six bounded field values, and
for every such rendering the extractor sets date to the `MM/DD/YYYY` rendering
and time to the `HH:MM:SS` rendering exactly when the fields denote a valid
calendar date and clock time (month 1-12, day within the month's length, hour
at most 23, minute and second at most 59) — otherwise, as for every value on
which the parse fails, both fields are absent.  Moreover the converse
restriction to pattern-matching values is genuine: some values not matching
the pattern, such as the non-padded `2023:7:4 10:15:30`, still parse and set
both fields. -/
theorem c6_datetime_format_amended :
    (∀ v : String, matchesTextualPattern v = true →
        ∃ y mo d hr mi sec : Nat, y ≤ 9999 ∧ mo ≤ 99 ∧ d ≤ 99 ∧ hr ≤ 99 ∧ mi ≤ 99 ∧
          sec ≤ 99 ∧ v = strictPatternString y mo d hr mi sec)
  ∧ (∀ y mo d hr mi sec : Nat, y ≤ 9999 → mo ≤ 99 → d ≤ 99 → hr ≤ 99 → mi ≤ 99 →
        sec ≤ 99 →
      runDateTag (strictPatternString y mo d hr mi sec)
        = if validDatetime ⟨y, mo, d, hr, mi, sec⟩
          then (some (renderDateMDY ⟨y, mo, d, hr, mi, sec⟩),
                some (renderTimeHMS ⟨y, mo, d, hr, mi, sec⟩))
          else (none, none))
  ∧ (∀ v : String, strptimeExif v = none → runDateTag v = (none, none))
  ∧ matchesTextualPattern "2023:7:4 10:15:30" = false
  ∧ runDateTag "2023:7:4 10:15:30" = (some "07/04/2023", some "10:15:30") :=
  ⟨matchesTextualPattern_strict,
   runDateTag_strict_char,
   fun _ hv => by simp [runDateTag, hv],
   by decide,
   by decide⟩

/-- C6, amended-claim witness: the valid field values `2023-07-04 10:15:30`
render as claimed; the calendar-invalid field values `2023-02-30 10:15:30`
yield both fields absent although their rendering matches the textual pattern
(as the theorem's first conjunct confirms at that very string); and the
unparsable `"not-a-date"` yields both absent. -/
theorem c6_datetime_format_amended_witness :
    (runDateTag (strictPatternString 2023 7 4 10 15 30)
      = (some (renderDateMDY ⟨2023, 7, 4, 10, 15, 30⟩),
         some (renderTimeHMS ⟨2023, 7, 4, 10, 15, 30⟩))
  ∧ runDateTag (strictPatternString 2023 2 30 10 15 30) = (none, none))
  ∧ (∃ y mo d hr mi sec : Nat, y ≤ 9999 ∧ mo ≤ 99 ∧ d ≤ 99 ∧ hr ≤ 99 ∧ mi ≤ 99 ∧
      sec ≤ 99 ∧ "2023:02:30 10:15:30" = strictPatternString y mo d hr mi sec)
  ∧ runDateTag "not-a-date" = ((none : Option String), (none : Option String)) := by
  refine ⟨⟨?_, ?_⟩,
    c6_datetime_format_amended.1 "2023:02:30 10:15:30" (by decide),
    c6_datetime_format_amended.2.2.1 "not-a-date" (by decide)⟩
  · rw [c6_datetime_format_amended.2.1 2023 7 4 10 15 30 (by norm_num) (by norm_num)
      (by norm_num) (by norm_num) (by norm_num) (by norm_num)]
    rw [if_pos (show validDatetime ⟨2023, 7, 4, 10, 15, 30⟩ = true by decide)]
  · rw [c6_datetime_format_amended.2.1 2023 2 30 10 15 30 (by norm_num) (by norm_num)
      (by norm_num) (by norm_num) (by norm_num) (by norm_num)]
    rw [if_neg (show ¬ validDatetime ⟨2023, 2, 30, 10, 15, 30⟩ = true by decide)]

end ImageMeta
